import Mathlib

/-!
Verification of the LibLinuxTray StatusNotifierItem implementation against its
natural-language specification.  The definitions below are a shallow embedding
of the C++ sources (`statusnotifieritem.cpp`, `qtthreadmanager.cpp`,
`sni_wrapper.cpp`): pure data and control flow are translated directly, Qt/DBus
side effects are made explicit as emitted-signal lists and bus-call records.
-/

namespace LibLinuxTray

/-! ## Pixmap encoding (`StatusNotifierItem::iconToPixmapList`)

A 32-bit ARGB pixel word is stored in host byte order inside the image buffer;
on a little-endian host the encoder swaps every 32-bit word to big-endian
(`qToBigEndian`).  Bytes are modelled as `Nat`s below 256, pixel words as
`Nat`s whose low 32 bits are the pixel. -/

/-- `qToBigEndian` on a 32-bit word: the four bytes of the (truncated) word in
reversed significance order. -/
def bswap32 (x : Nat) : Nat :=
  (x % 256) * 16777216 + (x / 256 % 256) * 65536 + (x / 65536 % 256) * 256
    + (x / 16777216 % 256)

/-- The four bytes of a 32-bit word as laid out in memory on a little-endian
host (least significant byte first). -/
def leBytes32 (x : Nat) : List Nat :=
  [x % 256, x / 256 % 256, x / 65536 % 256, x / 16777216 % 256]

/-- The four bytes of a 32-bit word as laid out in memory on a big-endian host
(most significant byte first). -/
def beBytes32 (x : Nat) : List Nat :=
  [x / 16777216 % 256, x / 65536 % 256, x / 256 % 256, x % 256]

/-- The byte-swapping loop of `iconToPixmapList`: each complete group of four
bytes is reversed in place; a trailing incomplete group is left untouched
(the loop runs `size / sizeof(quint32)` times). -/
def swapWords : List Nat → List Nat
  | a :: b :: c :: d :: rest => d :: c :: b :: a :: swapWords rest
  | l => l

/-- Reading a byte stream back as 32-bit big-endian words (the decoding
direction of the round-trip property; incomplete trailing groups ignored). -/
def decodeBE : List Nat → List Nat
  | a :: b :: c :: d :: rest =>
      (a * 16777216 + b * 65536 + c * 256 + d) :: decodeBE rest
  | _ => []

/-- A `QImage` already in `Format_ARGB32`: its pixel words in row-major
order. -/
structure QImageARGB32 where
  width : Nat
  height : Nat
  pixels : List Nat
deriving DecidableEq

/-- `img.bits()` : the raw byte buffer of the image in host byte order
(`le = true` for a little-endian host). -/
def imageBits (le : Bool) (img : QImageARGB32) : List Nat :=
  img.pixels.flatMap (fun p => if le then leBytes32 p else beBytes32 p)

/-- One entry of the wire-format icon list: width, height and the ARGB byte
buffer (big-endian on the wire). -/
structure IconPixmap where
  width : Nat
  height : Nat
  bytes : List Nat
deriving DecidableEq

/-- The per-resolution body of `iconToPixmapList`: take the image bytes and,
on a little-endian host, byte-swap every 32-bit word to big-endian. -/
def encodeIconPixmap (le : Bool) (img : QImageARGB32) : IconPixmap :=
  { width := img.width
    height := img.height
    bytes := if le then swapWords (imageBits le img) else imageBits le img }

/-- A `QIcon` as the encoder sees it: a cache key, the advertised resolutions,
and a renderer that may fail (a null `QPixmap`/`QImage` is `none`; successful
renders are taken already converted to `Format_ARGB32`, as the source does
with `convertToFormat`). -/
structure QIconModel where
  cacheKey : Nat
  availableSizes : List (Nat × Nat)
  render : Nat → Nat → Option QImageARGB32

/-- The `sizes` local of `iconToPixmapList`: the advertised resolutions, or
the fixed candidate set {16,22,24,32,48} when none are advertised. -/
def iconSizes (icon : QIconModel) : List (Nat × Nat) :=
  if icon.availableSizes.isEmpty
    then [(16, 16), (22, 22), (24, 24), (32, 32), (48, 48)]
    else icon.availableSizes

/-- The `pixmapList` local of `iconToPixmapList` after the per-size loop:
sizes whose render fails (`pm.isNull()`) are skipped, the rest are encoded. -/
def iconPixmapLoop (le : Bool) (icon : QIconModel) : List IconPixmap :=
  (iconSizes icon).filterMap
    (fun sz => (icon.render sz.1 sz.2).map (encodeIconPixmap le))

/-- `StatusNotifierItem::iconToPixmapList`: enumerate the advertised sizes
(falling back to {16,22,24,32,48} when none), skip sizes that fail to render,
and if everything failed try one forced 32×32 render, which is appended only
when it succeeds. -/
def iconToPixmapList (le : Bool) (icon : QIconModel) : List IconPixmap :=
  if (iconPixmapLoop le icon).isEmpty then
    match icon.render 32 32 with
    | some img => [encodeIconPixmap le img]
    | none => []
  else
    iconPixmapLoop le icon

/-- A `QIcon` that renders nothing at any size (a null icon). -/
def nullQIcon : QIconModel :=
  { cacheKey := 0, availableSizes := [], render := fun _ _ => none }

/-- A 1×1 icon whose renders always succeed. -/
def oneByOneIcon : QIconModel :=
  { cacheKey := 7
    availableSizes := [(1, 1)]
    render := fun _ _ => some { width := 1, height := 1, pixels := [0x11223344] } }

/-- A synthetic 2×2 ARGB bitmap with known pixel values (the spec's round-trip
test vector). -/
def sample2x2 : QImageARGB32 :=
  { width := 2, height := 2
    pixels := [0x11223344, 0x55667788, 0x99AABBCC, 0xDDEEFF00] }

/-! ### Theorems for C3 and C4 -/

/-- C3 (counterexample): the claim says `iconToPixmapList` never returns an
empty list; on an icon whose every render fails — the forced 32×32 fallback
included — the code returns the empty list. -/
theorem iconToPixmapList_nullIcon_empty :
    iconToPixmapList true nullQIcon = [] := rfl

/-- C3 (amended): each resolution that fails to render is skipped and no error
is ever propagated; whenever the forced 32×32 last-resort render succeeds the
result is non-empty (the result can be empty only when that forced render
itself fails). -/
theorem iconToPixmapList_ne_nil_of_fallback (le : Bool) (icon : QIconModel)
    (h : icon.render 32 32 ≠ none) : iconToPixmapList le icon ≠ [] := by
  unfold iconToPixmapList
  by_cases hempty : (iconPixmapLoop le icon).isEmpty
  · rw [if_pos hempty]
    cases hr : icon.render 32 32 with
    | none => exact absurd hr h
    | some img => simp
  · rw [if_neg hempty]
    simpa using hempty

/-- C3 (witness): a concrete icon whose forced render succeeds yields a
non-empty pixmap list. -/
theorem iconToPixmapList_ne_nil_witness :
    iconToPixmapList true oneByOneIcon ≠ [] :=
  iconToPixmapList_ne_nil_of_fallback true oneByOneIcon (by
    simp [oneByOneIcon])

/-- Swapping an explicit byte decomposition reverses the bytes. -/
theorem bswap32_of_bytes (b0 b1 b2 b3 : Nat) (h0 : b0 < 256) (h1 : b1 < 256)
    (h2 : b2 < 256) (h3 : b3 < 256) :
    bswap32 (b0 + b1 * 256 + b2 * 65536 + b3 * 16777216) =
      b3 + b2 * 256 + b1 * 65536 + b0 * 16777216 := by
  unfold bswap32
  omega

/-- The 32-bit byte swap is an involution (up to truncation to 32 bits). -/
theorem bswap32_bswap32 (x : Nat) : bswap32 (bswap32 x) = x % 4294967296 := by
  have h : bswap32 x = (x / 16777216 % 256) + (x / 65536 % 256) * 256
      + (x / 256 % 256) * 65536 + (x % 256) * 16777216 := by
    unfold bswap32; ring
  rw [h, bswap32_of_bytes _ _ _ _ (by omega) (by omega) (by omega) (by omega)]
  have h1 : x / 256 / 256 = x / 65536 := Nat.div_div_eq_div_mul x 256 256
  have h2 : x / 65536 / 256 = x / 16777216 := Nat.div_div_eq_div_mul x 65536 256
  have h3 : x / 16777216 / 256 = x / 4294967296 :=
    Nat.div_div_eq_div_mul x 16777216 256
  omega

/-- C4: on a little-endian host the encoder emits every 32-bit ARGB pixel word
in big-endian byte order: the synthetic 2×2 bitmap with known pixel values is
encoded as the big-endian byte stream, reading those bytes back as big-endian
words reconstructs the original pixels exactly, and the per-word swap is an
involution on 32-bit words. -/
theorem encode2x2_bigEndian_roundTrip :
    (encodeIconPixmap true sample2x2).bytes =
      [0x11, 0x22, 0x33, 0x44, 0x55, 0x66, 0x77, 0x88,
       0x99, 0xAA, 0xBB, 0xCC, 0xDD, 0xEE, 0xFF, 0x00] ∧
    decodeBE (encodeIconPixmap true sample2x2).bytes = sample2x2.pixels ∧
    (∀ p : Nat, bswap32 (bswap32 p) = p % 4294967296) :=
  ⟨by decide, by decide, fun p => bswap32_bswap32 p⟩

/-! ## StatusNotifierItem state and signals

The mutable fields of `StatusNotifierItem` (member initializers of the
constructor give the initial values), and the signals a member function emits
(`Q_EMIT` on the adaptor, the `PropertiesChanged` broadcast for `Menu`, and
the two activation/scroll signals). -/

/-- A signal emitted by the item (adaptor signals, the generic
`PropertiesChanged` broadcast used for the `Menu` property, and the
request signals delivered to the application). -/
inductive Signal where
  | newTitle
  | newStatus (s : String)
  | newIcon
  | newOverlayIcon
  | newAttentionIcon
  | newToolTip
  | propertiesChangedMenu (path : String)
  | activateRequested (x y : Int)
  | secondaryActivateRequested (x y : Int)
  | scrollRequested (delta : Int) (horizontal : Bool)
deriving DecidableEq

/-- The environment variables `noMenuPathForEnvironment` inspects:
`XDG_CURRENT_DESKTOP`, `DESKTOP_SESSION` and whether `KDE_FULL_SESSION`
is set. -/
structure DesktopEnv where
  xdg : String
  sess : String
  kdeFull : Bool

/-- Whether `needle` occurs as a contiguous run inside the second list. -/
def strContainsAux (needle : List Char) : List Char → Bool
  | [] => needle.isEmpty
  | c :: rest => needle.isPrefixOf (c :: rest) || strContainsAux needle rest

/-- `QString::toLower` on the character sequence of a string. -/
def strToLower (s : String) : List Char :=
  s.toList.map Char.toLower

/-- `QString::contains` as a substring test over lowered characters. -/
def strContains (hay : List Char) (needle : String) : Bool :=
  strContainsAux needle.toList hay

/-- `noMenuPathForEnvironment`: the DBus path used when there is no menu —
`/NO_DBUSMENU` for KDE/Plasma sessions, `/` otherwise. -/
def noMenuPathForEnvironment (env : DesktopEnv) : String :=
  if strContains (strToLower env.xdg) "kde" ||
      strContains (strToLower env.xdg) "plasma" ||
      strContains (strToLower env.sess) "kde" ||
      strContains (strToLower env.sess) "plasma" || env.kdeFull then
    "/NO_DBUSMENU"
  else
    "/"

/-- The mutable per-item state of `StatusNotifierItem` (menus are opaque
handles; `mMenu = none` models the null pointer). -/
structure SNIState where
  mTitle : String
  mStatus : String
  mCategory : String
  mIconName : String
  mIcon : List IconPixmap
  mIconCacheKey : Nat
  mOverlayIconName : String
  mOverlayIcon : List IconPixmap
  mOverlayIconCacheKey : Nat
  mAttentionIconName : String
  mAttentionIcon : List IconPixmap
  mAttentionIconCacheKey : Nat
  mTooltipTitle : String
  mTooltipSubtitle : String
  mTooltipIconName : String
  mTooltipIcon : List IconPixmap
  mTooltipIconCacheKey : Nat
  mMenu : Option Nat
  mMenuPath : String
deriving DecidableEq

/-- `setMenuPath`: compare-then-set; a change is broadcast through the
generic `PropertiesChanged` signal for the `Menu` property. -/
def setMenuPath (st : SNIState) (path : String) : SNIState × List Signal :=
  if st.mMenuPath = path then (st, [])
  else ({ st with mMenuPath := path }, [Signal.propertiesChangedMenu path])

/-- The member-initializer state of the constructor, before its body runs
(`mMenuPath` starts as `/` and is corrected right after). -/
def constructedState : SNIState :=
  { mTitle := "Test", mStatus := "Active", mCategory := "ApplicationStatus"
    mIconName := "", mIcon := [], mIconCacheKey := 0
    mOverlayIconName := "", mOverlayIcon := [], mOverlayIconCacheKey := 0
    mAttentionIconName := "", mAttentionIcon := [], mAttentionIconCacheKey := 0
    mTooltipTitle := "", mTooltipSubtitle := ""
    mTooltipIconName := "", mTooltipIcon := [], mTooltipIconCacheKey := 0
    mMenu := none, mMenuPath := "/" }

/-- The state after the constructor body has run
(`setMenuPath(noMenuPathForEnvironment())`). -/
def initState (env : DesktopEnv) : SNIState :=
  (setMenuPath constructedState (noMenuPathForEnvironment env)).1

/-- `setTitle`: compare-then-set-then-notify with `NewTitle`. -/
def setTitle (st : SNIState) (title : String) : SNIState × List Signal :=
  if st.mTitle = title then (st, [])
  else ({ st with mTitle := title }, [Signal.newTitle])

/-- `setStatus`: compare-then-set-then-notify with `NewStatus(mStatus)`. -/
def setStatus (st : SNIState) (status : String) : SNIState × List Signal :=
  if st.mStatus = status then (st, [])
  else ({ st with mStatus := status }, [Signal.newStatus status])

/-- `setCategory`: compare-then-set; note the source emits no signal here. -/
def setCategory (st : SNIState) (category : String) : SNIState × List Signal :=
  if st.mCategory = category then (st, [])
  else ({ st with mCategory := category }, [])

/-- `setIconByName`: compare-then-set, clearing the decoded pixmap list and
cache key, then `NewIcon`. -/
def setIconByName (st : SNIState) (name : String) : SNIState × List Signal :=
  if st.mIconName = name then (st, [])
  else ({ st with mIconName := name, mIcon := [], mIconCacheKey := 0 },
        [Signal.newIcon])

/-- `setIconByPixmap`: compare cache keys, store the encoded pixmap list,
clear the symbolic name, then `NewIcon`. -/
def setIconByPixmap (le : Bool) (st : SNIState) (icon : QIconModel) :
    SNIState × List Signal :=
  if st.mIconCacheKey = icon.cacheKey then (st, [])
  else ({ st with mIconCacheKey := icon.cacheKey,
                  mIcon := iconToPixmapList le icon, mIconName := "" },
        [Signal.newIcon])

/-- `setOverlayIconByName`. -/
def setOverlayIconByName (st : SNIState) (name : String) :
    SNIState × List Signal :=
  if st.mOverlayIconName = name then (st, [])
  else ({ st with mOverlayIconName := name, mOverlayIcon := [],
                  mOverlayIconCacheKey := 0 },
        [Signal.newOverlayIcon])

/-- `setOverlayIconByPixmap`. -/
def setOverlayIconByPixmap (le : Bool) (st : SNIState) (icon : QIconModel) :
    SNIState × List Signal :=
  if st.mOverlayIconCacheKey = icon.cacheKey then (st, [])
  else ({ st with mOverlayIconCacheKey := icon.cacheKey,
                  mOverlayIcon := iconToPixmapList le icon,
                  mOverlayIconName := "" },
        [Signal.newOverlayIcon])

/-- `setAttentionIconByName`. -/
def setAttentionIconByName (st : SNIState) (name : String) :
    SNIState × List Signal :=
  if st.mAttentionIconName = name then (st, [])
  else ({ st with mAttentionIconName := name, mAttentionIcon := [],
                  mAttentionIconCacheKey := 0 },
        [Signal.newAttentionIcon])

/-- `setAttentionIconByPixmap`. -/
def setAttentionIconByPixmap (le : Bool) (st : SNIState) (icon : QIconModel) :
    SNIState × List Signal :=
  if st.mAttentionIconCacheKey = icon.cacheKey then (st, [])
  else ({ st with mAttentionIconCacheKey := icon.cacheKey,
                  mAttentionIcon := iconToPixmapList le icon,
                  mAttentionIconName := "" },
        [Signal.newAttentionIcon])

/-- `setToolTipTitle`. -/
def setToolTipTitle (st : SNIState) (title : String) :
    SNIState × List Signal :=
  if st.mTooltipTitle = title then (st, [])
  else ({ st with mTooltipTitle := title }, [Signal.newToolTip])

/-- `setToolTipSubTitle`. -/
def setToolTipSubTitle (st : SNIState) (subTitle : String) :
    SNIState × List Signal :=
  if st.mTooltipSubtitle = subTitle then (st, [])
  else ({ st with mTooltipSubtitle := subTitle }, [Signal.newToolTip])

/-- `setToolTipIconByName`. -/
def setToolTipIconByName (st : SNIState) (name : String) :
    SNIState × List Signal :=
  if st.mTooltipIconName = name then (st, [])
  else ({ st with mTooltipIconName := name, mTooltipIcon := [],
                  mTooltipIconCacheKey := 0 },
        [Signal.newToolTip])

/-- `setToolTipIconByPixmap`. -/
def setToolTipIconByPixmap (le : Bool) (st : SNIState) (icon : QIconModel) :
    SNIState × List Signal :=
  if st.mTooltipIconCacheKey = icon.cacheKey then (st, [])
  else ({ st with mTooltipIconCacheKey := icon.cacheKey,
                  mTooltipIcon := iconToPixmapList le icon,
                  mTooltipIconName := "" },
        [Signal.newToolTip])

/-- `forceUpdate`: unconditionally re-emit `NewIcon`, `NewToolTip`,
`NewStatus(mStatus)`; the state is untouched. -/
def forceUpdate (st : SNIState) : List Signal :=
  [Signal.newIcon, Signal.newToolTip, Signal.newStatus st.mStatus]

/-- `Activate(x, y)`: a `NeedsAttention` status is first cleared back to
`Active`; `NewStatus` is then emitted unconditionally, followed by the
`activateRequested` signal carrying the point. -/
def Activate (st : SNIState) (x y : Int) : SNIState × List Signal :=
  let st1 := if st.mStatus = "NeedsAttention"
    then { st with mStatus := "Active" } else st
  (st1, [Signal.newStatus st1.mStatus, Signal.activateRequested x y])

/-- `SecondaryActivate(x, y)`: same pattern as `Activate`. -/
def SecondaryActivate (st : SNIState) (x y : Int) : SNIState × List Signal :=
  let st1 := if st.mStatus = "NeedsAttention"
    then { st with mStatus := "Active" } else st
  (st1, [Signal.newStatus st1.mStatus, Signal.secondaryActivateRequested x y])

/-- `setContextMenu`: no-op on an equal reference; otherwise store the new
reference, then either switch `mMenuPath` to the fixed `/MenuBar` (menu
present, export bridge recreated) or back to the environment-appropriate
no-menu path (menu removed). -/
def setContextMenu (env : DesktopEnv) (st : SNIState) (menu : Option Nat) :
    SNIState × List Signal :=
  if st.mMenu = menu then (st, [])
  else
    let st1 := { st with mMenu := menu }
    match menu with
    | some _ => setMenuPath st1 "/MenuBar"
    | none => setMenuPath st1 (noMenuPathForEnvironment env)

/-- `onMenuDestroyed`: the attached menu was destroyed out-of-band — clear
the reference, drop the exporter and revert to the no-menu path. -/
def onMenuDestroyed (env : DesktopEnv) (st : SNIState) :
    SNIState × List Signal :=
  setMenuPath { st with mMenu := none } (noMenuPathForEnvironment env)

/-- A GNOME-style session (no KDE indicator set). -/
def gnomeEnv : DesktopEnv := { xdg := "GNOME", sess := "gnome", kdeFull := false }

/-- A KDE/Plasma session. -/
def kdeEnv : DesktopEnv := { xdg := "KDE", sess := "plasma", kdeFull := true }

/-! ## C1: menu attach/detach invariant -/

/-- One menu-lifecycle event visible to the item: a `setContextMenu` call or
an out-of-band destruction of the attached menu. -/
inductive MenuOp where
  | setMenu (m : Option Nat)
  | destroyed
deriving DecidableEq

/-- State transition of one menu-lifecycle event (emitted signals dropped). -/
def applyMenuOp (env : DesktopEnv) (st : SNIState) : MenuOp → SNIState
  | MenuOp.setMenu m => (setContextMenu env st m).1
  | MenuOp.destroyed => (onMenuDestroyed env st).1

/-- A whole sequence of menu-lifecycle events. -/
def runMenuOps (env : DesktopEnv) (ops : List MenuOp) (st : SNIState) :
    SNIState :=
  ops.foldl (applyMenuOp env) st

/-- The invariant: `mMenuPath` reflects the attachment state exactly. -/
def MenuInv (env : DesktopEnv) (st : SNIState) : Prop :=
  st.mMenuPath =
    if st.mMenu.isSome then "/MenuBar" else noMenuPathForEnvironment env

theorem noMenuPath_ne_menuBar (env : DesktopEnv) :
    noMenuPathForEnvironment env ≠ "/MenuBar" := by
  unfold noMenuPathForEnvironment
  split <;> decide

theorem setMenuPath_fst_path (st : SNIState) (p : String) :
    ((setMenuPath st p).1).mMenuPath = p := by
  unfold setMenuPath
  split
  · next he => exact he
  · rfl

theorem setMenuPath_fst_menu (st : SNIState) (p : String) :
    ((setMenuPath st p).1).mMenu = st.mMenu := by
  unfold setMenuPath
  split <;> rfl

theorem menuInv_init (env : DesktopEnv) : MenuInv env (initState env) := by
  unfold MenuInv initState
  rw [setMenuPath_fst_path, setMenuPath_fst_menu]
  rfl

theorem menuInv_applyMenuOp (env : DesktopEnv) (st : SNIState) (op : MenuOp)
    (h : MenuInv env st) : MenuInv env (applyMenuOp env st op) := by
  cases op with
  | setMenu m =>
    show MenuInv env (setContextMenu env st m).1
    unfold setContextMenu
    split
    · exact h
    · cases m with
      | some k =>
        unfold MenuInv
        rw [setMenuPath_fst_path, setMenuPath_fst_menu]
        rfl
      | none =>
        unfold MenuInv
        rw [setMenuPath_fst_path, setMenuPath_fst_menu]
        rfl
  | destroyed =>
    show MenuInv env (onMenuDestroyed env st).1
    unfold MenuInv onMenuDestroyed
    rw [setMenuPath_fst_path, setMenuPath_fst_menu]
    rfl

theorem menuInv_runMenuOps (env : DesktopEnv) (ops : List MenuOp) :
    ∀ st : SNIState, MenuInv env st → MenuInv env (runMenuOps env ops st) := by
  induction ops with
  | nil => intro st h; exact h
  | cons op rest ih =>
      intro st h
      exact ih _ (menuInv_applyMenuOp env st op h)

/-- C1: after any sequence of `setContextMenu` calls and out-of-band menu
destructions, `mMenuPath` equals the fixed attached path `/MenuBar` exactly
when a non-null menu reference is stored, and a detached item's path is the
environment-appropriate no-menu path. -/
theorem menu_attach_detach_invariant (env : DesktopEnv) (ops : List MenuOp) :
    ((runMenuOps env ops (initState env)).mMenu ≠ none ↔
      (runMenuOps env ops (initState env)).mMenuPath = "/MenuBar") ∧
    ((runMenuOps env ops (initState env)).mMenu = none →
      (runMenuOps env ops (initState env)).mMenuPath =
        noMenuPathForEnvironment env) := by
  have hinv : MenuInv env (runMenuOps env ops (initState env)) :=
    menuInv_runMenuOps env ops (initState env) (menuInv_init env)
  unfold MenuInv at hinv
  refine ⟨⟨fun hm => ?_, fun hp hm => ?_⟩, fun hm => ?_⟩
  · cases hsome : (runMenuOps env ops (initState env)).mMenu with
    | none => exact absurd hsome hm
    | some k => rw [hinv, hsome]; rfl
  · rw [hm] at hinv
    simp only [Option.isSome_none, Bool.false_eq_true, if_false] at hinv
    exact noMenuPath_ne_menuBar env (hinv.symm.trans hp)
  · rw [hm] at hinv
    simpa using hinv

/-- C1 (witness): attaching a menu and then destroying it out-of-band leaves
a GNOME-environment item with a null reference and the `/` no-menu path. -/
theorem menu_attach_detach_invariant_witness :
    (runMenuOps gnomeEnv [MenuOp.setMenu (some 1), MenuOp.destroyed]
        (initState gnomeEnv)).mMenuPath = "/" := by
  have h := menu_attach_detach_invariant gnomeEnv
    [MenuOp.setMenu (some 1), MenuOp.destroyed]
  have hp := h.2 (by decide)
  rw [hp]
  decide

/-! ## C2: setter idempotence and signal emission -/

/-- The concatenated signal trace of calling the same setter twice in a row
with the same argument. -/
def twiceSignals {α : Type} (f : SNIState → α → SNIState × List Signal)
    (st : SNIState) (v : α) : List Signal :=
  (f st v).2 ++ (f (f st v).1 v).2

/-- C2 (counterexample): `setCategory` is a property setter whose value here
actually changes, yet calling it twice emits no change notification at all
(the source stores the category without any `Q_EMIT`), not exactly one. -/
theorem setCategory_twice_emits_nothing :
    twiceSignals setCategory (initState gnomeEnv) "Hidden" = [] ∧
    (initState gnomeEnv).mCategory ≠ "Hidden" := by
  refine ⟨by decide, by decide⟩

/-- C2 (amended): for every setter except `setCategory`, calling the setter
twice in a row with a value distinct from the stored one emits the property's
change notification exactly once (the second call is a silent no-op);
`setCategory` stores the value but never emits; `forceUpdate` re-emits the
icon, tooltip and status notifications unconditionally on every call. -/
theorem setters_emit_once_on_double_set (st : SNIState) (le : Bool)
    (tv sv cv inm ovn atn ttt tts ttn : String)
    (ic ov at2 tt : QIconModel)
    (h1 : st.mTitle ≠ tv) (h2 : st.mStatus ≠ sv)
    (h3 : st.mIconName ≠ inm) (h4 : st.mIconCacheKey ≠ ic.cacheKey)
    (h5 : st.mOverlayIconName ≠ ovn)
    (h6 : st.mOverlayIconCacheKey ≠ ov.cacheKey)
    (h7 : st.mAttentionIconName ≠ atn)
    (h8 : st.mAttentionIconCacheKey ≠ at2.cacheKey)
    (h9 : st.mTooltipTitle ≠ ttt) (h10 : st.mTooltipSubtitle ≠ tts)
    (h11 : st.mTooltipIconName ≠ ttn)
    (h12 : st.mTooltipIconCacheKey ≠ tt.cacheKey) :
    twiceSignals setTitle st tv = [Signal.newTitle] ∧
    twiceSignals setStatus st sv = [Signal.newStatus sv] ∧
    twiceSignals setIconByName st inm = [Signal.newIcon] ∧
    twiceSignals (setIconByPixmap le) st ic = [Signal.newIcon] ∧
    twiceSignals setOverlayIconByName st ovn = [Signal.newOverlayIcon] ∧
    twiceSignals (setOverlayIconByPixmap le) st ov = [Signal.newOverlayIcon] ∧
    twiceSignals setAttentionIconByName st atn = [Signal.newAttentionIcon] ∧
    twiceSignals (setAttentionIconByPixmap le) st at2 =
      [Signal.newAttentionIcon] ∧
    twiceSignals setToolTipTitle st ttt = [Signal.newToolTip] ∧
    twiceSignals setToolTipSubTitle st tts = [Signal.newToolTip] ∧
    twiceSignals setToolTipIconByName st ttn = [Signal.newToolTip] ∧
    twiceSignals (setToolTipIconByPixmap le) st tt = [Signal.newToolTip] ∧
    twiceSignals setCategory st cv = [] ∧
    forceUpdate st =
      [Signal.newIcon, Signal.newToolTip, Signal.newStatus st.mStatus] := by
  refine ⟨?_, ?_, ?_, ?_, ?_, ?_, ?_, ?_, ?_, ?_, ?_, ?_, ?_, rfl⟩
  · simp [twiceSignals, setTitle, h1]
  · simp [twiceSignals, setStatus, h2]
  · simp [twiceSignals, setIconByName, h3]
  · simp [twiceSignals, setIconByPixmap, h4]
  · simp [twiceSignals, setOverlayIconByName, h5]
  · simp [twiceSignals, setOverlayIconByPixmap, h6]
  · simp [twiceSignals, setAttentionIconByName, h7]
  · simp [twiceSignals, setAttentionIconByPixmap, h8]
  · simp [twiceSignals, setToolTipTitle, h9]
  · simp [twiceSignals, setToolTipSubTitle, h10]
  · simp [twiceSignals, setToolTipIconByName, h11]
  · simp [twiceSignals, setToolTipIconByPixmap, h12]
  · unfold twiceSignals setCategory
    by_cases hc : st.mCategory = cv
    · simp [hc]
    · simp [hc]

/-- C2 (witness): the double-set property at the freshly constructed item
with concretely fresh values. -/
theorem setters_emit_once_witness :
    twiceSignals setTitle (initState gnomeEnv) "Demo" = [Signal.newTitle] ∧
    twiceSignals setStatus (initState gnomeEnv) "Passive" =
      [Signal.newStatus "Passive"] ∧
    forceUpdate (initState gnomeEnv) =
      [Signal.newIcon, Signal.newToolTip, Signal.newStatus "Active"] := by
  have h := setters_emit_once_on_double_set (initState gnomeEnv) true
    "Demo" "Passive" "Hidden" "a" "b" "c" "d" "e" "f"
    oneByOneIcon oneByOneIcon oneByOneIcon oneByOneIcon
    (by decide) (by decide) (by decide) (by decide) (by decide) (by decide)
    (by decide) (by decide) (by decide) (by decide) (by decide) (by decide)
  refine ⟨h.1, h.2.1, ?_⟩
  have hforce := h.2.2.2.2.2.2.2.2.2.2.2.2.2
  exact hforce

/-! ## C5: mutual exclusion of icon name and pixmap representations -/

/-- The four icon slots of the item. -/
inductive IconSlot where
  | primary
  | overlay
  | attention
  | tooltip
deriving DecidableEq

/-- One icon-setter call: set a slot by symbolic name or by pixmap. -/
inductive IconOp where
  | byName (slot : IconSlot) (name : String)
  | byPixmap (slot : IconSlot) (icon : QIconModel)

/-- The state transition of one icon-setter call. -/
def applyIconOp (le : Bool) (st : SNIState) : IconOp → SNIState
  | IconOp.byName IconSlot.primary n => (setIconByName st n).1
  | IconOp.byName IconSlot.overlay n => (setOverlayIconByName st n).1
  | IconOp.byName IconSlot.attention n => (setAttentionIconByName st n).1
  | IconOp.byName IconSlot.tooltip n => (setToolTipIconByName st n).1
  | IconOp.byPixmap IconSlot.primary i => (setIconByPixmap le st i).1
  | IconOp.byPixmap IconSlot.overlay i => (setOverlayIconByPixmap le st i).1
  | IconOp.byPixmap IconSlot.attention i =>
      (setAttentionIconByPixmap le st i).1
  | IconOp.byPixmap IconSlot.tooltip i => (setToolTipIconByPixmap le st i).1

/-- A whole sequence of icon-setter calls. -/
def runIconOps (le : Bool) (ops : List IconOp) (st : SNIState) : SNIState :=
  ops.foldl (applyIconOp le) st

/-- Mutual exclusion: in every slot at most one of the symbolic name and the
decoded pixmap list is populated. -/
def IconExcl (st : SNIState) : Prop :=
  (st.mIconName = "" ∨ st.mIcon = []) ∧
  (st.mOverlayIconName = "" ∨ st.mOverlayIcon = []) ∧
  (st.mAttentionIconName = "" ∨ st.mAttentionIcon = []) ∧
  (st.mTooltipIconName = "" ∨ st.mTooltipIcon = [])

theorem iconExcl_applyIconOp (le : Bool) (st : SNIState) (op : IconOp)
    (h : IconExcl st) : IconExcl (applyIconOp le st op) := by
  obtain ⟨e1, e2, e3, e4⟩ := h
  cases op with
  | byName s n =>
    cases s
    · show IconExcl (setIconByName st n).1
      unfold setIconByName
      split
      · exact ⟨e1, e2, e3, e4⟩
      · exact ⟨Or.inr rfl, e2, e3, e4⟩
    · show IconExcl (setOverlayIconByName st n).1
      unfold setOverlayIconByName
      split
      · exact ⟨e1, e2, e3, e4⟩
      · exact ⟨e1, Or.inr rfl, e3, e4⟩
    · show IconExcl (setAttentionIconByName st n).1
      unfold setAttentionIconByName
      split
      · exact ⟨e1, e2, e3, e4⟩
      · exact ⟨e1, e2, Or.inr rfl, e4⟩
    · show IconExcl (setToolTipIconByName st n).1
      unfold setToolTipIconByName
      split
      · exact ⟨e1, e2, e3, e4⟩
      · exact ⟨e1, e2, e3, Or.inr rfl⟩
  | byPixmap s i =>
    cases s
    · show IconExcl (setIconByPixmap le st i).1
      unfold setIconByPixmap
      split
      · exact ⟨e1, e2, e3, e4⟩
      · exact ⟨Or.inl rfl, e2, e3, e4⟩
    · show IconExcl (setOverlayIconByPixmap le st i).1
      unfold setOverlayIconByPixmap
      split
      · exact ⟨e1, e2, e3, e4⟩
      · exact ⟨e1, Or.inl rfl, e3, e4⟩
    · show IconExcl (setAttentionIconByPixmap le st i).1
      unfold setAttentionIconByPixmap
      split
      · exact ⟨e1, e2, e3, e4⟩
      · exact ⟨e1, e2, Or.inl rfl, e4⟩
    · show IconExcl (setToolTipIconByPixmap le st i).1
      unfold setToolTipIconByPixmap
      split
      · exact ⟨e1, e2, e3, e4⟩
      · exact ⟨e1, e2, e3, Or.inl rfl⟩

theorem iconExcl_init (env : DesktopEnv) : IconExcl (initState env) := by
  unfold initState setMenuPath
  split
  · exact ⟨Or.inl rfl, Or.inl rfl, Or.inl rfl, Or.inl rfl⟩
  · exact ⟨Or.inl rfl, Or.inl rfl, Or.inl rfl, Or.inl rfl⟩

theorem iconExcl_runIconOps (le : Bool) (ops : List IconOp) :
    ∀ st : SNIState, IconExcl st → IconExcl (runIconOps le ops st) := by
  induction ops with
  | nil => intro st h; exact h
  | cons op rest ih =>
      intro st h
      exact ih _ (iconExcl_applyIconOp le st op h)

/-- C5 (counterexample): a set-by-name call whose name equals the stored one
returns early and clears nothing: after a by-pixmap set, `setIconByName("")`
leaves the decoded pixmap list and the cache key populated, refuting that
every set-by-name call clears them. -/
theorem setIconByName_noop_clears_nothing :
    ((setIconByName (setIconByPixmap true (initState gnomeEnv)
        oneByOneIcon).1 "").1.mIcon ≠ []) ∧
    ((setIconByName (setIconByPixmap true (initState gnomeEnv)
        oneByOneIcon).1 "").1.mIconCacheKey ≠ 0) := by
  refine ⟨by decide, by decide⟩

/-- C5 (amended): every set-by-name call that passes the inequality guard
clears the slot's pixmap list and cache key, every set-by-pixmap call that
passes its cache-key guard clears the slot's name (early-returning no-op
calls change nothing), and after any sequence of icon-setter calls at most
one of the two representations is populated in every slot. -/
theorem icon_name_pixmap_exclusive (le : Bool) (env : DesktopEnv)
    (ops : List IconOp) :
    IconExcl (runIconOps le ops (initState env)) ∧
    (∀ (st : SNIState) (n : String), st.mIconName ≠ n →
      (setIconByName st n).1.mIcon = [] ∧
      (setIconByName st n).1.mIconCacheKey = 0) ∧
    (∀ (st : SNIState) (i : QIconModel), st.mIconCacheKey ≠ i.cacheKey →
      (setIconByPixmap le st i).1.mIconName = "") ∧
    (∀ (st : SNIState) (n : String), st.mOverlayIconName ≠ n →
      (setOverlayIconByName st n).1.mOverlayIcon = [] ∧
      (setOverlayIconByName st n).1.mOverlayIconCacheKey = 0) ∧
    (∀ (st : SNIState) (i : QIconModel),
        st.mOverlayIconCacheKey ≠ i.cacheKey →
      (setOverlayIconByPixmap le st i).1.mOverlayIconName = "") ∧
    (∀ (st : SNIState) (n : String), st.mAttentionIconName ≠ n →
      (setAttentionIconByName st n).1.mAttentionIcon = [] ∧
      (setAttentionIconByName st n).1.mAttentionIconCacheKey = 0) ∧
    (∀ (st : SNIState) (i : QIconModel),
        st.mAttentionIconCacheKey ≠ i.cacheKey →
      (setAttentionIconByPixmap le st i).1.mAttentionIconName = "") ∧
    (∀ (st : SNIState) (n : String), st.mTooltipIconName ≠ n →
      (setToolTipIconByName st n).1.mTooltipIcon = [] ∧
      (setToolTipIconByName st n).1.mTooltipIconCacheKey = 0) ∧
    (∀ (st : SNIState) (i : QIconModel),
        st.mTooltipIconCacheKey ≠ i.cacheKey →
      (setToolTipIconByPixmap le st i).1.mTooltipIconName = "") := by
  refine ⟨?_, ?_, ?_, ?_, ?_, ?_, ?_, ?_, ?_⟩
  · exact iconExcl_runIconOps le ops (initState env) (iconExcl_init env)
  · intro st n hn; simp [setIconByName, hn]
  · intro st i hi; simp [setIconByPixmap, hi]
  · intro st n hn; simp [setOverlayIconByName, hn]
  · intro st i hi; simp [setOverlayIconByPixmap, hi]
  · intro st n hn; simp [setAttentionIconByName, hn]
  · intro st i hi; simp [setAttentionIconByPixmap, hi]
  · intro st n hn; simp [setToolTipIconByName, hn]
  · intro st i hi; simp [setToolTipIconByPixmap, hi]

/-! ## C10: Activate / SecondaryActivate -/

/-- C10: every invocation of `Activate` or `SecondaryActivate` emits the
status-change notification unconditionally — when the status is not
`NeedsAttention` it is re-announced unchanged — and only then emits the
activation signal carrying the point. -/
theorem activate_emits_status_then_signal (st : SNIState) (x y : Int) :
    (Activate st x y).2 =
      [Signal.newStatus (Activate st x y).1.mStatus,
       Signal.activateRequested x y] ∧
    (SecondaryActivate st x y).2 =
      [Signal.newStatus (SecondaryActivate st x y).1.mStatus,
       Signal.secondaryActivateRequested x y] ∧
    (st.mStatus ≠ "NeedsAttention" → (Activate st x y).1 = st ∧
      (SecondaryActivate st x y).1 = st) := by
  refine ⟨rfl, rfl, fun h => ?_⟩
  constructor
  · unfold Activate
    simp [h]
  · unfold SecondaryActivate
    simp [h]

/-! ## Outbound bus calls: registration (C6) and notification (C8) -/

/-- A `QDBusInterface` method invocation is either blocking (`call`) or
asynchronous (`asyncCall`). -/
inductive CallKind where
  | sync
  | async
deriving DecidableEq

/-- One marshalled argument of an outbound bus call. -/
inductive DBusArg where
  | str (s : String)
  | uint (n : Nat)
  | int (n : Int)
  | strList (l : List String)
  | varMap
deriving DecidableEq

/-- One outbound bus method call as issued through a `QDBusInterface`. -/
structure BusCall where
  kind : CallKind
  service : String
  path : String
  iface : String
  method : String
  args : List DBusArg
deriving DecidableEq

/-- `registerToHost`: the asynchronous registration call to the well-known
watcher service, carrying the connection's base service name. -/
def registerToHost (baseService : String) : BusCall :=
  { kind := CallKind.async
    service := "org.kde.StatusNotifierWatcher"
    path := "/StatusNotifierWatcher"
    iface := "org.kde.StatusNotifierWatcher"
    method := "RegisterStatusNotifierItem"
    args := [DBusArg.str baseService] }

/-- `onServiceOwnerChanged`: the watcher ownership-change handler; `service`
and `oldOwner` are explicitly unused (`Q_UNUSED`), only a non-empty new
owner triggers re-registration. -/
def onServiceOwnerChanged (baseService service oldOwner newOwner : String) :
    List BusCall :=
  if !newOwner.isEmpty then [registerToHost baseService] else []

/-- C6 (counterexample): an ownership change from one non-empty owner to
another non-empty owner also re-issues the registration call — the old owner
is ignored, refuting re-issue only on empty-to-non-empty transitions. -/
theorem register_reissued_despite_nonempty_old :
    onServiceOwnerChanged ":1.42" "org.kde.StatusNotifierWatcher"
        ":1.5" ":1.9" = [registerToHost ":1.42"] ∧
    (":1.5" : String) ≠ "" := by
  exact ⟨rfl, by decide⟩

/-- C6 (amended): the `RegisterStatusNotifierItem` call is re-issued on a
watcher ownership-change notification exactly when the new owner is
non-empty, irrespective of the old owner. -/
theorem register_reissued_iff_nonempty_new (base svc old newOwner : String) :
    (onServiceOwnerChanged base svc old newOwner ≠ [] ↔ newOwner ≠ "") ∧
    (newOwner ≠ "" →
      onServiceOwnerChanged base svc old newOwner = [registerToHost base]) ∧
    (∀ old2 : String, onServiceOwnerChanged base svc old2 newOwner =
      onServiceOwnerChanged base svc old newOwner) := by
  refine ⟨?_, fun h => ?_, fun old2 => rfl⟩
  · unfold onServiceOwnerChanged
    by_cases h0 : newOwner = ""
    · subst h0
      simp [show String.isEmpty "" = true from rfl]
    · have hE : newOwner.isEmpty = false := by
        cases he : newOwner.isEmpty
        · rfl
        · exact absurd ((String.isEmpty_iff _).1 he) h0
      simp [hE, h0]
  · unfold onServiceOwnerChanged
    have hE : newOwner.isEmpty = false := by
      cases he : newOwner.isEmpty
      · rfl
      · exact absurd ((String.isEmpty_iff _).1 he) h
    simp [hE]

/-- C6 (witness): at the concrete transition of an empty owner to `:1.9` the
registration call is issued. -/
theorem register_reissued_witness :
    onServiceOwnerChanged ":1.42" "org.kde.StatusNotifierWatcher" "" ":1.9" =
      [registerToHost ":1.42"] :=
  (register_reissued_iff_nonempty_new ":1.42" "org.kde.StatusNotifierWatcher"
    "" ":1.9").2.1 (by decide)

/-- `showMessage`: a single blocking `call` of `Notify` on the desktop
notification service; the reply (and any failure) is discarded. -/
def showMessage (st : SNIState) (title msg iconName : String) (secs : Int) :
    List BusCall :=
  [{ kind := CallKind.sync
     service := "org.freedesktop.Notifications"
     path := "/org/freedesktop/Notifications"
     iface := "org.freedesktop.Notifications"
     method := "Notify"
     args := [DBusArg.str st.mTitle, DBusArg.uint 0, DBusArg.str iconName,
              DBusArg.str title, DBusArg.str msg, DBusArg.strList [],
              DBusArg.varMap, DBusArg.int secs] }]

/-- C8 (counterexample): the `Notify` invocation is issued with the blocking
`call` primitive, not the asynchronous one — the claim's "asynchronous,
non-blocking" is refuted at a concrete invocation. -/
theorem showMessage_call_is_blocking :
    (showMessage (initState gnomeEnv) "Hello" "Body" "ico" 5000).map
        BusCall.kind = [CallKind.sync] ∧
    CallKind.sync ≠ CallKind.async := by
  exact ⟨rfl, by decide⟩

/-- C8 (amended): `showMessage` issues exactly one `Notify` call — blocking,
with its reply discarded so no failure reaches the caller — to the desktop
notification service with arguments
`(app_name = mTitle, replaces_id = 0, icon, title, body, actions = [],
hints = {}, timeout)`. -/
theorem showMessage_single_notify_call (st : SNIState)
    (title msg iconName : String) (secs : Int) :
    (showMessage st title msg iconName secs).length = 1 ∧
    ∀ c ∈ showMessage st title msg iconName secs,
      c.kind = CallKind.sync ∧
      c.service = "org.freedesktop.Notifications" ∧
      c.method = "Notify" ∧
      c.args = [DBusArg.str st.mTitle, DBusArg.uint 0, DBusArg.str iconName,
                DBusArg.str title, DBusArg.str msg, DBusArg.strList [],
                DBusArg.varMap, DBusArg.int secs] := by
  refine ⟨rfl, fun c hc => ?_⟩
  simp only [showMessage, List.mem_singleton] at hc
  subst hc
  exact ⟨rfl, rfl, rfl, rfl⟩

/-! ## C7: the event-loop owner's blocking invocation -/

/-- The owner thread's context: the thread id that owns the loop, the queue
of closures posted to it, and the state those closures mutate. -/
structure ThreadCtx (σ : Type) where
  owner : Nat
  queue : List (σ → σ)
  shared : σ

/-- `QtThreadManager::runBlocking`: a caller already on the owner thread runs
`fn` directly; any other caller posts `fn` with a blocking queued
connection.  The returned flag records whether the call was submitted to the
queue (`true`) or executed inline (`false`). -/
def runBlocking {σ : Type} (current : Nat) (ctx : ThreadCtx σ)
    (fn : σ → σ) : ThreadCtx σ × Bool :=
  if current = ctx.owner then ({ ctx with shared := fn ctx.shared }, false)
  else ({ ctx with queue := ctx.queue ++ [fn] }, true)

/-- C7: `runBlocking` invoked on the owner thread executes `fn` immediately
and inline — the effect of `fn` is visible at return, nothing is submitted
to the queue, and the call completes without a blocking rendezvous (so a
reentrant call cannot self-deadlock). -/
theorem runBlocking_inline_on_owner_thread {σ : Type} (current : Nat)
    (ctx : ThreadCtx σ) (fn : σ → σ) (h : current = ctx.owner) :
    (runBlocking current ctx fn).1.shared = fn ctx.shared ∧
    (runBlocking current ctx fn).1.queue = ctx.queue ∧
    (runBlocking current ctx fn).2 = false := by
  unfold runBlocking
  rw [if_pos h]
  exact ⟨rfl, rfl, rfl⟩

/-- C7 (witness): a reentrant call on owner thread 7 increments the shared
counter inline, leaves the queue empty and is not queued. -/
theorem runBlocking_inline_witness :
    (runBlocking 7 ⟨7, [], (3 : Nat)⟩ (fun n => n + 1)).1.shared = 4 ∧
    (runBlocking 7 ⟨7, [], (3 : Nat)⟩ (fun n => n + 1)).1.queue = [] ∧
    (runBlocking 7 ⟨7, [], (3 : Nat)⟩ (fun n => n + 1)).2 = false :=
  runBlocking_inline_on_owner_thread 7 ⟨7, [], (3 : Nat)⟩ (fun n => n + 1) rfl

/-! ## C9: the C API's null-handle policy (`sni_wrapper.cpp`)

Every entry point receives opaque pointers; the wrapper's work is marshalled
onto the owner thread, modelled here as an appended effect record.  A null
pointer makes the entry point return before marshalling anything. -/

/-- The work item an entry point marshals onto the owner thread. -/
inductive CEffect where
  | eDestroy (h : Nat)
  | eSetTitle (h : Nat) (title : String)
  | eSetStatus (h : Nat) (status : String)
  | eSetIconByName (h : Nat) (name : String)
  | eSetIconByPath (h : Nat) (path : String)
  | eSetTooltipTitle (h : Nat) (title : String)
  | eSetTooltipSubtitle (h : Nat) (subTitle : String)
  | eSetContextMenu (h : Nat) (menu : Option Nat)
  | eSetMenuItemText (item : Nat) (text : String)
  | eSetMenuItemEnabled (item : Nat) (enabled : Bool)
  | eSetMenuItemChecked (item : Nat) (checked : Bool)
  | eRemoveMenuItem (menu item : Nat)
  | eTrayUpdate (h : Nat)
  | eShowNotification (h : Nat) (title msg icon : String) (timeoutMs : Int)
  | eClearMenu (menu : Nat)
deriving DecidableEq

/-- The observable state of the wrapper: the sequence of marshalled work
items. -/
structure WrapperState where
  effects : List CEffect
deriving DecidableEq

/-- `destroy_handle`. -/
def destroy_handle (handle : Option Nat) (st : WrapperState) : WrapperState :=
  match handle with
  | none => st
  | some h => { st with effects := st.effects ++ [CEffect.eDestroy h] }

/-- `set_title`. -/
def set_title (handle : Option Nat) (title : Option String)
    (st : WrapperState) : WrapperState :=
  match handle, title with
  | some h, some t =>
      { st with effects := st.effects ++ [CEffect.eSetTitle h t] }
  | _, _ => st

/-- `set_status`. -/
def set_status (handle : Option Nat) (status : Option String)
    (st : WrapperState) : WrapperState :=
  match handle, status with
  | some h, some s =>
      { st with effects := st.effects ++ [CEffect.eSetStatus h s] }
  | _, _ => st

/-- `set_icon_by_name`. -/
def set_icon_by_name (handle : Option Nat) (name : Option String)
    (st : WrapperState) : WrapperState :=
  match handle, name with
  | some h, some n =>
      { st with effects := st.effects ++ [CEffect.eSetIconByName h n] }
  | _, _ => st

/-- `set_icon_by_path`. -/
def set_icon_by_path (handle : Option Nat) (path : Option String)
    (st : WrapperState) : WrapperState :=
  match handle, path with
  | some h, some p =>
      { st with effects := st.effects ++ [CEffect.eSetIconByPath h p] }
  | _, _ => st

/-- `set_tooltip_title`. -/
def set_tooltip_title (handle : Option Nat) (title : Option String)
    (st : WrapperState) : WrapperState :=
  match handle, title with
  | some h, some t =>
      { st with effects := st.effects ++ [CEffect.eSetTooltipTitle h t] }
  | _, _ => st

/-- `set_tooltip_subtitle`. -/
def set_tooltip_subtitle (handle : Option Nat) (subTitle : Option String)
    (st : WrapperState) : WrapperState :=
  match handle, subTitle with
  | some h, some t =>
      { st with effects := st.effects ++ [CEffect.eSetTooltipSubtitle h t] }
  | _, _ => st

/-- `set_context_menu`: only the item handle is checked; a null menu handle
is a legitimate detach request. -/
def set_context_menu (handle : Option Nat) (menu : Option Nat)
    (st : WrapperState) : WrapperState :=
  match handle with
  | none => st
  | some h =>
      { st with effects := st.effects ++ [CEffect.eSetContextMenu h menu] }

/-- `set_menu_item_text`. -/
def set_menu_item_text (item : Option Nat) (text : Option String)
    (st : WrapperState) : WrapperState :=
  match item, text with
  | some a, some t =>
      { st with effects := st.effects ++ [CEffect.eSetMenuItemText a t] }
  | _, _ => st

/-- `set_menu_item_enabled`. -/
def set_menu_item_enabled (item : Option Nat) (enabled : Int)
    (st : WrapperState) : WrapperState :=
  match item with
  | none => st
  | some a =>
      { st with effects :=
          st.effects ++ [CEffect.eSetMenuItemEnabled a (enabled != 0)] }

/-- `set_menu_item_checked`: the only entry point with an error code — it
returns `-1` on a null item handle and `0` otherwise. -/
def set_menu_item_checked (item : Option Nat) (checked : Int)
    (st : WrapperState) : WrapperState × Int :=
  match item with
  | none => (st, -1)
  | some a =>
      ({ st with effects :=
          st.effects ++ [CEffect.eSetMenuItemChecked a (checked != 0)] }, 0)

/-- `remove_menu_item`. -/
def remove_menu_item (menu item : Option Nat) (st : WrapperState) :
    WrapperState :=
  match menu, item with
  | some m, some a =>
      { st with effects := st.effects ++ [CEffect.eRemoveMenuItem m a] }
  | _, _ => st

/-- `tray_update`. -/
def tray_update (handle : Option Nat) (st : WrapperState) : WrapperState :=
  match handle with
  | none => st
  | some h => { st with effects := st.effects ++ [CEffect.eTrayUpdate h] }

/-- `show_notification`: only the handle is checked; null strings are
replaced by empty ones and seconds are converted to milliseconds. -/
def show_notification (handle : Option Nat)
    (title msg icon : Option String) (secs : Int) (st : WrapperState) :
    WrapperState :=
  match handle with
  | none => st
  | some h =>
      { st with effects := st.effects ++
          [CEffect.eShowNotification h (title.getD "") (msg.getD "")
            (icon.getD "") (secs * 1000)] }

/-- `clear_menu`. -/
def clear_menu (menu : Option Nat) (st : WrapperState) : WrapperState :=
  match menu with
  | none => st
  | some m => { st with effects := st.effects ++ [CEffect.eClearMenu m] }

/-- C9 (counterexample): `set_menu_item_checked` on a null handle returns
the error code `-1` (its success code is `0`), so not every operation
swallows a null handle without reporting an error. -/
theorem set_menu_item_checked_null_reports_error :
    set_menu_item_checked none 1 { effects := [] } =
      ({ effects := [] }, -1) ∧
    (set_menu_item_checked (some 5) 1 { effects := [] }).2 = 0 := by
  exact ⟨rfl, rfl⟩

/-- C9 (amended): every C-API operation invoked with a null handle is a
no-op that leaves the wrapper state unchanged, and none reports an error —
except `set_menu_item_checked`, which additionally returns `-1` on a null
item handle (still without touching any state). -/
theorem c_api_null_handle_noop (st : WrapperState) (t s n p tt ts txt : Option String)
    (m mi : Option Nat) (e c : Int) (secs : Int) :
    destroy_handle none st = st ∧
    set_title none t st = st ∧
    set_status none s st = st ∧
    set_icon_by_name none n st = st ∧
    set_icon_by_path none p st = st ∧
    set_tooltip_title none tt st = st ∧
    set_tooltip_subtitle none ts st = st ∧
    set_context_menu none m st = st ∧
    set_menu_item_text none txt st = st ∧
    set_menu_item_enabled none e st = st ∧
    set_menu_item_checked none c st = (st, -1) ∧
    remove_menu_item none mi st = st ∧
    remove_menu_item m none st = st ∧
    tray_update none st = st ∧
    show_notification none t s n secs st = st ∧
    clear_menu none st = st := by
  refine ⟨rfl, ?_, ?_, ?_, ?_, ?_, ?_, rfl, ?_, rfl, rfl, ?_, ?_, rfl, rfl,
    rfl⟩
  · cases t <;> rfl
  · cases s <;> rfl
  · cases n <;> rfl
  · cases p <;> rfl
  · cases tt <;> rfl
  · cases ts <;> rfl
  · cases txt <;> rfl
  · cases mi <;> rfl
  · cases m <;> rfl
